import Mathlib

/-!
# Verification of the hybrid search ranking engine

Shallow embedding of `src/utils/searchRanking.js` and the `/search` route
pipeline of `src/routes/movies.js` from the movie-streaming backend.

Strings are modelled as `List Char` (`Str`); JS numbers appearing in the
ranking data are modelled as `ℚ` (every finite IEEE double is rational).
`Math.log` is modelled by `Real.log`, so score-valued functions that touch
the popularity term live in `ℝ`.
-/

namespace MovieStreaming

open List

/-- JS strings, modelled as lists of characters. -/
abbrev Str := List Char

/-- `String.prototype.toLowerCase()` (ASCII-faithful case folding). -/
def jsToLower (s : Str) : Str := s.map Char.toLower

/-- Characters stripped by `String.prototype.trim()` (the ASCII part of the
JS WhiteSpace/LineTerminator set). -/
def isJsWhitespace (c : Char) : Bool :=
  c == ' ' || c == '\t' || c == '\n' || c == '\r'

/-- `String.prototype.trim()`: strip leading and trailing whitespace. -/
def jsTrim (s : Str) : Str :=
  ((s.dropWhile isJsWhitespace).reverse.dropWhile isJsWhitespace).reverse

/-- Row `i+1` of the `levenshteinDistance` DP table, given row `i` as the
function `prev` and the row-`i+1` character `c2` (`str2.charAt(i)`): entry
`0` is the base value `i+1`; entry `j+1` copies the diagonal `prev j` when
the characters match, else `min(diagonal, left, up) + 1` exactly as the
inner loop of the source writes `matrix[i][j]`. -/
def levRowFn (s1 : Str) (c2 : Char) (prev : Nat → Nat) (base : Nat) : Nat → Nat
  | 0 => base
  | j + 1 =>
    if c2 = s1.getD j (Char.ofNat 0) then prev j
    else
      min (prev j + 1)
        (min (levRowFn s1 c2 prev base j + 1) (prev (j + 1) + 1))

/-- The dynamic-programming table of `levenshteinDistance` in
`src/utils/searchRanking.js` (lines 1–30): `levMatrix s1 s2 i j` is
`matrix[i][j]`, the edit distance between the first `i` characters of
`str2` and the first `j` characters of `str1`.  Row `0` is `j ↦ j`; row
`i+1` is built from row `i` by `levRowFn`, mirroring the row-by-row fill
of the source's nested loops. -/
def levMatrix (s1 s2 : Str) : Nat → Nat → Nat
  | 0 => fun j => j
  | i + 1 => levRowFn s1 (s2.getD i (Char.ofNat 0)) (levMatrix s1 s2 i) (i + 1)

/-- `levenshteinDistance(str1, str2)` from `src/utils/searchRanking.js`:
lower-cases both strings and evaluates the full DP table, returning
`matrix[str2.length][str1.length]`. -/
def levenshteinDistance (str1 str2 : Str) : Nat :=
  let s1 := jsToLower str1
  let s2 := jsToLower str2
  levMatrix s1 s2 s2.length s1.length

/-- `calculateSimilarity(query, text)` from `src/utils/searchRanking.js`
(lines 32–47): `0` for an empty (falsy) `text`; lower-case and trim both;
`1.0` when the folded text contains the folded query as a substring;
otherwise `max(0, 1 - distance / maxLength)`. -/
def calculateSimilarity (query text : Str) : ℚ :=
  if text = [] then 0
  else
    let q := jsTrim (jsToLower query)
    let t := jsTrim (jsToLower text)
    if q <:+: t then 1
    else
      let d := levenshteinDistance q t
      let maxLength := max q.length t.length
      max 0 (1 - (d : ℚ) / (maxLength : ℚ))

/-- A movie record as projected by the `/search` route of
`src/routes/movies.js` (`title`, `cast`, `directors`, `rating`,
`watch_count`).  `cast`/`directors` are `Option` to model the
`movie.cast && Array.isArray(movie.cast)` guards (absent field);
`rating`/`watch_count` are `Option ℚ` to model possibly-absent numeric
fields (`movie.rating || 0` defaults).  A missing `title` behaves exactly
like the empty string in every consumer (`!text` guard, `|| ''`), so
`title` is a plain string. -/
structure Movie where
  title : Str
  cast : Option (List Str)
  directors : Option (List Str)
  rating : Option ℚ
  watch_count : Option ℚ

/-- `calculateTitleSimilarity(movie, query)` from
`src/utils/searchRanking.js`. -/
def calculateTitleSimilarity (movie : Movie) (query : Str) : ℚ :=
  calculateSimilarity query movie.title

/-- `calculateCastDirectorScore(movie, query)` from
`src/utils/searchRanking.js` (lines 53–71): running maximum of
`calculateSimilarity(query, ·)` over the cast entries, then over the
director entries, starting from `0`; skips either list when absent. -/
def calculateCastDirectorScore (movie : Movie) (query : Str) : ℚ :=
  let afterCast :=
    match movie.cast with
    | none => 0
    | some cast =>
        cast.foldl (fun m actor => max m (calculateSimilarity query actor)) 0
  match movie.directors with
  | none => afterCast
  | some directors =>
      directors.foldl (fun m director => max m (calculateSimilarity query director)) afterCast

/-- `normalizeRating(rating)` from `src/utils/searchRanking.js`
(lines 73–76), on finite JS numbers: `!rating` is `rating = 0` for a
finite number, so the guard is `rating = 0 ∨ rating < 0`; otherwise
`Math.min(rating / 10, 1)`. -/
def normalizeRating (rating : ℚ) : ℚ :=
  if rating = 0 ∨ rating < 0 then 0 else min (rating / 10) 1

/-- `normalizePopularity(watchCount)` from `src/utils/searchRanking.js`
(lines 78–82), on finite JS numbers; `Math.log` is modelled by
`Real.log`: past the guard, `Math.min(Math.log(watchCount + 1) /
Math.log(10000), 1)`. -/
noncomputable def normalizePopularity (watchCount : ℚ) : ℝ :=
  if watchCount = 0 ∨ watchCount < 0 then 0
  else min (Real.log ((watchCount : ℝ) + 1) / Real.log 10000) 1

/-- `calculateHybridScore(movie, query)` from `src/utils/searchRanking.js`
(lines 84–101): `0.5 * max(titleSim, castDirSim) + 0.3 *
normalizeRating(movie.rating || 0) + 0.2 *
normalizePopularity(movie.watch_count || 0)`.  For a finite rational
field, `x || 0` is the identity on present values (`0 || 0` is `0`), i.e.
`Option.getD 0`. -/
noncomputable def calculateHybridScore (movie : Movie) (query : Str) : ℝ :=
  let titleSim := calculateTitleSimilarity movie query
  let castDirSim := calculateCastDirectorScore movie query
  let similarityScore := max titleSim castDirSim
  let ratingScore := normalizeRating (movie.rating.getD 0)
  let popularityScore := normalizePopularity (movie.watch_count.getD 0)
  0.5 * (similarityScore : ℝ) + 0.3 * (ratingScore : ℝ) + 0.2 * popularityScore

/-! ## JS numbers with the non-finite values

`normalizeRating`/`normalizePopularity` above embed the source functions on
finite inputs.  To settle the spec's claims about non-finite and absent
inputs, `JsNum` models the full JS number argument (plus `undefined`), and
the `…Js` functions embed the same two source functions branch by branch
under JS evaluation rules (`!x` truthiness, `NaN`/`Infinity` comparison,
arithmetic and `Math.min`/`Math.log` on infinities). -/

/-- A JS value flowing into `normalizeRating`/`normalizePopularity`:
`undefined` (absent field), `NaN`, `±Infinity`, or a finite number
(every finite IEEE double is rational). -/
inductive JsNum where
  | undef
  | nan
  | posInf
  | negInf
  | fin (q : ℚ)
deriving DecidableEq

/-- `normalizeRating(rating)` from `src/utils/searchRanking.js` on a full
JS number: `!undefined`, `!NaN` and `!0` are truthy guards returning `0`;
`-Infinity < 0` returns `0`; for `+Infinity` the guard fails and
`Math.min(Infinity / 10, 1) = Math.min(Infinity, 1) = 1`; on finite
values it is `normalizeRating`. -/
def normalizeRatingJs : JsNum → JsNum
  | .undef => .fin 0
  | .nan => .fin 0
  | .negInf => .fin 0
  | .posInf => .fin 1
  | .fin q => if q = 0 ∨ q < 0 then .fin 0 else .fin (min (q / 10) 1)

/-- A JS value produced by `normalizePopularityJs`: `NaN` or a (possibly
irrational) finite number. -/
inductive JsVal where
  | nan
  | val (x : ℝ)

/-- `normalizePopularity(watchCount)` from `src/utils/searchRanking.js` on
a full JS number: `undefined`/`NaN`/`0` are falsy and `-Infinity < 0`, so
all four return `0` from the guard; for `+Infinity` the guard fails and
`Math.min(Math.log(Infinity + 1) / Math.log(10000), 1) =
Math.min(Infinity, 1) = 1`; on finite values it is `normalizePopularity`. -/
noncomputable def normalizePopularityJs : JsNum → JsVal
  | .undef => .val 0
  | .nan => .val 0
  | .negInf => .val 0
  | .posInf => .val 1
  | .fin q =>
      if q = 0 ∨ q < 0 then .val 0
      else .val (min (Real.log ((q : ℝ) + 1) / Real.log 10000) 1)

/-! ## The `/search` route pipeline (`src/routes/movies.js`, lines 8–61) -/

/-- A candidate decorated by the route's `.map`: the spread movie plus the
derived `similarity` and `hybrid_score` fields. -/
structure ScoredMovie where
  movie : Movie
  similarity : ℚ
  hybrid_score : ℝ

/-- The route's `.map` body (`src/routes/movies.js` lines 32–36):
`similarity` is `calculateSimilarity(query, movie.title || '')` — the
title similarity alone — and `hybrid_score` is
`calculateHybridScore(movie, query)`. -/
noncomputable def scoreMovie (query : Str) (movie : Movie) : ScoredMovie :=
  { movie := movie
    similarity := calculateSimilarity query movie.title
    hybrid_score := calculateHybridScore movie query }

/-- Value of a nonempty run of leading decimal digits. -/
def digitsToNat (ds : Str) : Nat :=
  ds.foldl (fun acc c => acc * 10 + (c.toNat - '0'.toNat)) 0

/-- Leading decimal digits of a string, or `none` when there are none. -/
def parseDigits (s : Str) : Option Nat :=
  let ds := s.takeWhile Char.isDigit
  if ds = [] then none else some (digitsToNat ds)

/-- JS `parseInt(s)` for decimal input: skip leading whitespace, accept an
optional sign, read the maximal run of leading digits, `NaN` (here
`none`) when no digit is found. -/
def jsParseInt (s : Str) : Option Int :=
  let s := s.dropWhile isJsWhitespace
  match s with
  | '-' :: rest => (parseDigits rest).map (fun n => -(n : Int))
  | '+' :: rest => (parseDigits rest).map (fun n => (n : Int))
  | rest => (parseDigits rest).map (fun n => (n : Int))

/-- JS `array.slice(0, end)` where `end` is `parseInt`'s result: `NaN`
converts to `0`, so `none` yields the empty list; a negative `end` counts
from the end of the array (`max(length + end, 0)`); otherwise the first
`end` elements. -/
def jsSlice {α : Type} (l : List α) (e : Option Int) : List α :=
  match e with
  | none => []
  | some e => if e < 0 then l.take ((l.length + e).toNat) else l.take e.toNat

/-- The `limit` request parameter: `const { limit = 10 } = req.query`
defaults an absent parameter to `10` (and `parseInt(10) = 10`); a present
parameter is a string fed to `parseInt`. -/
def effectiveLimit : Option Str → Option Int
  | none => some 10
  | some s => jsParseInt s

/-- The route's `.filter(m => m.similarity > 0.4)` applied after the
`.map` (`src/routes/movies.js` line 37). -/
noncomputable def rankFiltered (movies : List Movie) (query : Str) : List ScoredMovie :=
  (movies.map (scoreMovie query)).filter (fun m => decide ((0.4 : ℚ) < m.similarity))

/-- The comparator `(a, b) => b.hybrid_score - a.hybrid_score` of the
route's `.sort`: `a` is placed no later than `b` exactly when the
comparator is `≤ 0`, i.e. `b.hybrid_score ≤ a.hybrid_score`. -/
noncomputable def hybridLe (a b : ScoredMovie) : Bool :=
  @decide (b.hybrid_score ≤ a.hybrid_score) (Classical.propDecidable _)

/-- The route's `.sort((a, b) => b.hybrid_score - a.hybrid_score)`
(`src/routes/movies.js` line 38), modelled as a stable merge sort with the
comparator's induced order (ECMAScript sorts are required stable). -/
noncomputable def rankSorted (movies : List Movie) (query : Str) : List ScoredMovie :=
  (rankFiltered movies query).mergeSort hybridLe

/-- The whole ranking pipeline of the `/search` route
(`src/routes/movies.js` lines 31–39): map, filter, sort,
`.slice(0, parseInt(limit))`. -/
noncomputable def rank (movies : List Movie) (query : Str) (limit : Option Str) :
    List ScoredMovie :=
  jsSlice (rankSorted movies query) (effectiveLimit limit)

/-- Outcome of the `/search` route: the 400 response of the query guard,
or the ranked results. -/
inductive SearchResponse where
  | badRequest
  | ok (results : List ScoredMovie)

/-- The `/search` handler's control flow (`src/routes/movies.js` lines
11–39): `if (!query)` rejects an absent or empty `query` parameter with
status 400; any other query reaches the ranking pipeline. -/
noncomputable def searchEndpoint (query : Option Str) (movies : List Movie)
    (limit : Option Str) : SearchResponse :=
  match query with
  | none => .badRequest
  | some q => if q = [] then .badRequest else .ok (rank movies q limit)

/-! ## Basic facts about `calculateSimilarity` -/

theorem calculateSimilarity_nonneg (query text : Str) :
    0 ≤ calculateSimilarity query text := by
  unfold calculateSimilarity
  dsimp only
  split
  · exact le_refl _
  · split
    · norm_num
    · exact le_max_left _ _

theorem calculateSimilarity_le_one (query text : Str) :
    calculateSimilarity query text ≤ 1 := by
  unfold calculateSimilarity
  dsimp only
  split
  · norm_num
  · split
    · exact le_refl _
    · refine max_le (by norm_num) ?_
      have h : (0 : ℚ) ≤ (levenshteinDistance (jsTrim (jsToLower query))
          (jsTrim (jsToLower text)) : ℚ) /
          ((max (jsTrim (jsToLower query)).length (jsTrim (jsToLower text)).length : Nat) : ℚ) :=
        div_nonneg (by positivity) (by positivity)
      linarith

theorem calculateSimilarity_substring {query text : Str} (ht : text ≠ [])
    (h : jsTrim (jsToLower query) <:+: jsTrim (jsToLower text)) :
    calculateSimilarity query text = 1 := by
  unfold calculateSimilarity
  dsimp only
  rw [if_neg ht, if_pos h]

/-- **C5** — For every pair of strings `(query, text)`,
`calculateSimilarity query text` lies in `[0, 1]`, including empty,
whitespace-only, and entirely disjoint inputs. -/
theorem similarity_bounds (query text : Str) :
    0 ≤ calculateSimilarity query text ∧ calculateSimilarity query text ≤ 1 :=
  ⟨calculateSimilarity_nonneg query text, calculateSimilarity_le_one query text⟩

/-- **C6** — Whenever the case-folded, trimmed text contains the
case-folded, trimmed query as a substring (and the text is non-empty),
`calculateSimilarity` returns exactly `1`; in particular any non-empty
string has similarity `1` with itself. -/
theorem similarity_substring_short_circuit :
    (∀ query text : Str, text ≠ [] →
      jsTrim (jsToLower query) <:+: jsTrim (jsToLower text) →
      calculateSimilarity query text = 1) ∧
    (∀ s : Str, s ≠ [] → calculateSimilarity s s = 1) := by
  refine ⟨fun query text ht h => calculateSimilarity_substring ht h, ?_⟩
  exact fun s hs => calculateSimilarity_substring hs (List.infix_refl _)

/-- Witness for C6 at the spec's own example: `"The Godfather"` contains
`"god"` after folding, so the similarity is exactly `1`. -/
theorem similarity_substring_short_circuit_witness :
    calculateSimilarity "god".toList "The Godfather".toList = 1 :=
  similarity_substring_short_circuit.1 "god".toList "The Godfather".toList
    (by decide) (by decide)

/-! ## Symmetry of the edit distance (C7) -/

theorem levMatrix_succ_succ (s1 s2 : Str) (i j : Nat) :
    levMatrix s1 s2 (i + 1) (j + 1) =
      if s2.getD i (Char.ofNat 0) = s1.getD j (Char.ofNat 0) then
        levMatrix s1 s2 i j
      else
        min (levMatrix s1 s2 i j + 1)
          (min (levMatrix s1 s2 (i + 1) j + 1) (levMatrix s1 s2 i (j + 1) + 1)) := rfl

theorem levMatrix_symm (s1 s2 : Str) (i j : Nat) :
    levMatrix s1 s2 i j = levMatrix s2 s1 j i := by
  induction i generalizing j with
  | zero => cases j <;> rfl
  | succ i ih =>
    induction j with
    | zero => rfl
    | succ j ihj =>
      rw [levMatrix_succ_succ, levMatrix_succ_succ, ih j, ih (j + 1), ihj]
      by_cases h : s2.getD i (Char.ofNat 0) = s1.getD j (Char.ofNat 0)
      · rw [if_pos h, if_pos h.symm]
      · rw [if_neg h, if_neg (fun e => h e.symm)]
        omega

/-- **C7** — The dynamic-programming edit distance is symmetric:
`levenshteinDistance a b = levenshteinDistance b a` for all strings. -/
theorem levenshteinDistance_symm (a b : Str) :
    levenshteinDistance a b = levenshteinDistance b a := by
  unfold levenshteinDistance
  exact levMatrix_symm (jsToLower a) (jsToLower b) (jsToLower b).length (jsToLower a).length

/-! ## Normalization of malformed numeric input (C9) -/

/-- **C9, counterexample** — The claim "every non-finite input normalizes
to 0" fails at `+Infinity`: the guard `!rating || rating < 0` lets
`Infinity` through, and `Math.min(Infinity / 10, 1)` is `1`, not `0`. -/
theorem normalizeRatingJs_posInf_ne_zero :
    normalizeRatingJs .posInf = .fin 1 ∧ JsNum.fin 1 ≠ JsNum.fin 0 :=
  ⟨rfl, by decide⟩

/-- **C9, amended** — Negative, `NaN`, and absent (`undefined`) inputs are
normalized to `0` by both `normalizeRating` and `normalizePopularity`
(so is `-Infinity`), and `normalizeRating 15 = 1`,
`normalizeRating (-3) = 0`; but `+Infinity` is not normalized to `0`:
both functions return `1` on it. -/
theorem normalize_malformed_amended :
    (∀ q : ℚ, q < 0 → normalizeRatingJs (.fin q) = .fin 0) ∧
    (∀ q : ℚ, q < 0 → normalizePopularityJs (.fin q) = .val 0) ∧
    normalizeRatingJs .undef = .fin 0 ∧
    normalizeRatingJs .nan = .fin 0 ∧
    normalizeRatingJs .negInf = .fin 0 ∧
    normalizePopularityJs .undef = .val 0 ∧
    normalizePopularityJs .nan = .val 0 ∧
    normalizePopularityJs .negInf = .val 0 ∧
    normalizeRatingJs (.fin 15) = .fin 1 ∧
    normalizeRatingJs (.fin (-3)) = .fin 0 ∧
    normalizeRatingJs .posInf = .fin 1 ∧
    normalizePopularityJs .posInf = .val 1 := by
  refine ⟨fun q h => ?_, fun q h => ?_, rfl, rfl, rfl, ?_, ?_, ?_, ?_, ?_, rfl, ?_⟩
  · rw [normalizeRatingJs, if_pos (Or.inr h)]
  · rw [normalizePopularityJs, if_pos (Or.inr h)]
  · rw [normalizePopularityJs]
  · rw [normalizePopularityJs]
  · rw [normalizePopularityJs]
  · rw [normalizeRatingJs, if_neg (by norm_num)]
    norm_num
  · rw [normalizeRatingJs, if_pos (by norm_num)]
  · rw [normalizePopularityJs]

/-- Witness for C9 (amended): applying the universal parts at `-5`. -/
theorem normalize_malformed_amended_witness :
    normalizeRatingJs (.fin (-5)) = .fin 0 ∧
    normalizePopularityJs (.fin (-5)) = .val 0 :=
  ⟨normalize_malformed_amended.1 (-5) (by decide),
   normalize_malformed_amended.2.1 (-5) (by decide)⟩

/-! ## Bounds of the hybrid score (C10) -/

theorem normalizeRating_bounds (q : ℚ) :
    0 ≤ normalizeRating q ∧ normalizeRating q ≤ 1 := by
  unfold normalizeRating
  split
  · norm_num
  · rename_i h
    push_neg at h
    constructor
    · exact le_min (div_nonneg h.2 (by norm_num)) zero_le_one
    · exact min_le_right _ _

theorem normalizePopularity_bounds (q : ℚ) :
    0 ≤ normalizePopularity q ∧ normalizePopularity q ≤ 1 := by
  unfold normalizePopularity
  split
  · norm_num
  · rename_i h
    push_neg at h
    have hq : (0 : ℚ) < q := lt_of_le_of_ne h.2 (Ne.symm h.1)
    have hlog : (0 : ℝ) ≤ Real.log ((q : ℝ) + 1) := by
      apply Real.log_nonneg
      have : (0 : ℝ) < (q : ℝ) := by exact_mod_cast hq
      linarith
    have hbase : (0 : ℝ) < Real.log 10000 := Real.log_pos (by norm_num)
    constructor
    · exact le_min (div_nonneg hlog hbase.le) zero_le_one
    · exact min_le_right _ _

theorem foldl_max_sim_bounds (query : Str) (l : List Str) (a : ℚ)
    (h0 : 0 ≤ a) (h1 : a ≤ 1) :
    0 ≤ l.foldl (fun m s => max m (calculateSimilarity query s)) a ∧
      l.foldl (fun m s => max m (calculateSimilarity query s)) a ≤ 1 := by
  induction l generalizing a with
  | nil => exact ⟨h0, h1⟩
  | cons x xs ih =>
    exact ih _ (le_max_of_le_left h0)
      (max_le h1 (calculateSimilarity_le_one query x))

theorem calculateCastDirectorScore_bounds (movie : Movie) (query : Str) :
    0 ≤ calculateCastDirectorScore movie query ∧
      calculateCastDirectorScore movie query ≤ 1 := by
  unfold calculateCastDirectorScore
  have hc : 0 ≤ (match movie.cast with
      | none => (0 : ℚ)
      | some cast =>
          cast.foldl (fun m actor => max m (calculateSimilarity query actor)) 0) ∧
      (match movie.cast with
      | none => (0 : ℚ)
      | some cast =>
          cast.foldl (fun m actor => max m (calculateSimilarity query actor)) 0) ≤ 1 := by
    cases movie.cast with
    | none => norm_num
    | some cast => exact foldl_max_sim_bounds query cast 0 le_rfl zero_le_one
  cases movie.directors with
  | none => exact hc
  | some directors => exact foldl_max_sim_bounds query directors _ hc.1 hc.2

/-- **C10** — For every movie and query, `calculateHybridScore` lies in
`[0, 1]`: each of the three weighted components lies in `[0, 1]` and the
weights `0.5`, `0.3`, `0.2` sum to `1`. -/
theorem hybridScore_bounds (movie : Movie) (query : Str) :
    0 ≤ calculateHybridScore movie query ∧ calculateHybridScore movie query ≤ 1 := by
  unfold calculateHybridScore
  dsimp only
  obtain ⟨ht0, ht1⟩ := similarity_bounds query movie.title
  obtain ⟨hc0, hc1⟩ := calculateCastDirectorScore_bounds movie query
  have hs0 : (0 : ℚ) ≤ max (calculateTitleSimilarity movie query)
      (calculateCastDirectorScore movie query) :=
    le_max_of_le_right hc0
  have hs1 : max (calculateTitleSimilarity movie query)
      (calculateCastDirectorScore movie query) ≤ 1 := max_le ht1 hc1
  obtain ⟨hr0, hr1⟩ := normalizeRating_bounds (movie.rating.getD 0)
  obtain ⟨hp0, hp1⟩ := normalizePopularity_bounds (movie.watch_count.getD 0)
  have hs0' : (0 : ℝ) ≤ (max (calculateTitleSimilarity movie query)
      (calculateCastDirectorScore movie query) : ℚ) := by exact_mod_cast hs0
  have hs1' : ((max (calculateTitleSimilarity movie query)
      (calculateCastDirectorScore movie query) : ℚ) : ℝ) ≤ 1 := by exact_mod_cast hs1
  have hr0' : (0 : ℝ) ≤ (normalizeRating (movie.rating.getD 0) : ℚ) := by exact_mod_cast hr0
  have hr1' : ((normalizeRating (movie.rating.getD 0) : ℚ) : ℝ) ≤ 1 := by exact_mod_cast hr1
  constructor <;> nlinarith [hs0', hs1', hr0', hr1', hp0, hp1]

/-! ## Pipeline helpers -/

theorem jsSlice_sublist {α : Type} (l : List α) (e : Option Int) :
    jsSlice l e <+ l := by
  unfold jsSlice
  cases e with
  | none => exact List.nil_sublist l
  | some e =>
    dsimp only
    split <;> exact List.take_sublist _ _

theorem hybridLe_trans (a b c : ScoredMovie) :
    hybridLe a b → hybridLe b c → hybridLe a c := by
  unfold hybridLe
  simp only [decide_eq_true_eq]
  exact fun hab hbc => le_trans hbc hab

theorem hybridLe_total (a b : ScoredMovie) : hybridLe a b || hybridLe b a := by
  unfold hybridLe
  rcases le_total a.hybrid_score b.hybrid_score with h | h <;>
    simp [decide_eq_true_eq, h]

/-- **C2** — Every element of `rank`'s output has `similarity`
strictly above `0.4`, and that `similarity` is the title similarity of
the underlying candidate; hence a candidate whose similarity is `≤ 0.4`
(in particular `0.39`) never appears, regardless of rating and
watch count. -/
theorem rank_filter_gate (movies : List Movie) (query : Str) (limit : Option Str)
    (sm : ScoredMovie) (h : sm ∈ rank movies query limit) :
    (0.4 : ℚ) < sm.similarity ∧
      sm.similarity = calculateSimilarity query sm.movie.title := by
  have h1 : sm ∈ rankSorted movies query :=
    (jsSlice_sublist _ _).subset h
  have h2 : sm ∈ rankFiltered movies query := by
    unfold rankSorted at h1
    exact List.mem_mergeSort.mp h1
  unfold rankFiltered at h2
  rw [List.mem_filter] at h2
  obtain ⟨hmem, hdec⟩ := h2
  have hgt : (0.4 : ℚ) < sm.similarity := of_decide_eq_true hdec
  obtain ⟨m, _, rfl⟩ := List.mem_map.mp hmem
  exact ⟨hgt, rfl⟩

/-- **C8** — `rank`'s output is pairwise (hence adjacently) sorted by
`hybrid_score` descending, and the sort is stable: two entries of the
filtered candidate list with equal `hybrid_score` keep their relative
order in the sorted list. -/
theorem rank_sorted_stable :
    (∀ movies query limit,
      (rank movies query limit).Pairwise
        (fun a b => b.hybrid_score ≤ a.hybrid_score)) ∧
    (∀ movies query (a b : ScoredMovie), a.hybrid_score = b.hybrid_score →
      [a, b] <+ rankFiltered movies query →
      [a, b] <+ rankSorted movies query) := by
  constructor
  · intro movies query limit
    have hs : (rankSorted movies query).Pairwise (fun a b => hybridLe a b) :=
      List.sorted_mergeSort hybridLe_trans hybridLe_total (rankFiltered movies query)
    have hs' : (rankSorted movies query).Pairwise
        (fun a b => b.hybrid_score ≤ a.hybrid_score) :=
      hs.imp (fun h => by
        have := of_decide_eq_true h
        exact this)
    exact hs'.sublist (jsSlice_sublist _ _)
  · intro movies query a b heq hsub
    have hab : hybridLe a b := by
      unfold hybridLe
      simp only [decide_eq_true_eq]
      exact le_of_eq heq.symm
    exact List.pair_sublist_mergeSort hybridLe_trans hybridLe_total hab hsub

/-! ## Concrete evaluation helpers and fixtures -/

theorem rankFiltered_nil (q : Str) : rankFiltered [] q = [] := rfl

theorem rankFiltered_cons_pos {q : Str} {m : Movie} (ms : List Movie)
    (h : (0.4 : ℚ) < calculateSimilarity q m.title) :
    rankFiltered (m :: ms) q = scoreMovie q m :: rankFiltered ms q := by
  unfold rankFiltered
  rw [List.map_cons, List.filter_cons,
    if_pos (decide_eq_true (show (0.4 : ℚ) < (scoreMovie q m).similarity from h))]

theorem rankFiltered_cons_neg {q : Str} {m : Movie} (ms : List Movie)
    (h : calculateSimilarity q m.title ≤ 0.4) :
    rankFiltered (m :: ms) q = rankFiltered ms q := by
  unfold rankFiltered
  rw [List.map_cons, List.filter_cons,
    if_neg (by
      simp only [decide_eq_true_eq, not_lt]
      exact h)]

theorem jsSlice_none {α : Type} (l : List α) : jsSlice l none = [] := rfl

theorem jsSlice_nonneg {α : Type} (l : List α) (e : Int) (h : 0 ≤ e) :
    jsSlice l (some e) = l.take e.toNat := by
  show (if e < 0 then l.take (((l.length : Int) + e).toNat) else l.take e.toNat)
    = l.take e.toNat
  rw [if_neg (not_lt.mpr h)]

theorem jsSlice_neg {α : Type} (l : List α) (e : Int) (h : e < 0) :
    jsSlice l (some e) = l.take ((l.length + e).toNat) := by
  show (if e < 0 then l.take (((l.length : Int) + e).toNat) else l.take e.toNat)
    = l.take (((l.length : Int) + e).toNat)
  rw [if_pos h]

theorem effectiveLimit_none : effectiveLimit none = some 10 := rfl

theorem effectiveLimit_some (s : Str) : effectiveLimit (some s) = jsParseInt s := rfl

theorem rank_none_singleton {q : Str} {m : Movie}
    (h : (0.4 : ℚ) < calculateSimilarity q m.title) :
    rank [m] q none = [scoreMovie q m] := by
  unfold rank rankSorted
  rw [rankFiltered_cons_pos [] h, rankFiltered_nil, List.mergeSort_singleton,
    effectiveLimit_none, jsSlice_nonneg _ _ (by norm_num)]
  simp

theorem rank_none_empty_of_low {q : Str} {m : Movie}
    (h : calculateSimilarity q m.title ≤ 0.4) :
    rank [m] q none = [] := by
  unfold rank rankSorted
  rw [rankFiltered_cons_neg [] h, rankFiltered_nil, List.mergeSort_nil,
    effectiveLimit_none, jsSlice_nonneg _ _ (by norm_num)]
  simp

/-- Fixture: a movie whose title is `"abc"` and has no other data. -/
def mAbc : Movie :=
  { title := "abc".toList, cast := none, directors := none
    rating := none, watch_count := none }

theorem mAbc_sim : calculateSimilarity "abc".toList mAbc.title = 1 :=
  calculateSimilarity_substring (by decide) (List.infix_refl _)

theorem mAbc_pass : (0.4 : ℚ) < calculateSimilarity "abc".toList mAbc.title := by
  rw [mAbc_sim]; norm_num

/-- Fixture for the cast-fallback scenario of the spec: unrelated title,
cast `["Tom Hanks"]`, healthy rating and watch count. -/
def tomMovie : Movie :=
  { title := "unrelated".toList, cast := some ["Tom Hanks".toList]
    directors := none, rating := some 8, watch_count := some 500 }

theorem tom_title_sim :
    calculateSimilarity "Tom Hanks".toList "unrelated".toList = 1 / 9 := by
  unfold calculateSimilarity
  dsimp only
  rw [if_neg (by decide), if_neg (by decide)]
  rw [show levenshteinDistance (jsTrim (jsToLower "Tom Hanks".toList))
      (jsTrim (jsToLower "unrelated".toList)) = 8 from by decide]
  rw [show max (jsTrim (jsToLower "Tom Hanks".toList)).length
      (jsTrim (jsToLower "unrelated".toList)).length = 9 from by decide]
  rw [max_eq_right (by norm_num)]
  norm_num

/-- **C1** — What the code actually does on the spec's cast-fallback
scenario: `calculateCastDirectorScore` is `1` (so the `max` inside
`calculateHybridScore` is dominated by the cast match, as the spec says),
but the route attaches `similarity = calculateSimilarity(query,
movie.title)` — the title similarity alone, here `1/9` — so the filter
gate removes the candidate and `rank` returns the empty list instead of
featuring it. -/
theorem cast_fallback_filtered_out :
    calculateCastDirectorScore tomMovie "Tom Hanks".toList = 1 ∧
    (scoreMovie "Tom Hanks".toList tomMovie).similarity = 1 / 9 ∧
    rank [tomMovie] "Tom Hanks".toList none = [] := by
  refine ⟨?_, ?_, ?_⟩
  · unfold calculateCastDirectorScore tomMovie
    dsimp only
    simp only [List.foldl_cons, List.foldl_nil]
    rw [@calculateSimilarity_substring "Tom Hanks".toList "Tom Hanks".toList
      (by decide) (List.infix_refl _)]
    norm_num
  · show calculateSimilarity "Tom Hanks".toList "unrelated".toList = 1 / 9
    exact tom_title_sim
  · refine rank_none_empty_of_low ?_
    show calculateSimilarity "Tom Hanks".toList "unrelated".toList ≤ 0.4
    rw [tom_title_sim]
    norm_num

/-- Witness for C2: with one candidate titled `"abc"` and the query
`"abc"`, the scored candidate is in `rank`'s output, so the theorem
applies to it. -/
theorem rank_filter_gate_witness :
    (0.4 : ℚ) < (scoreMovie "abc".toList mAbc).similarity ∧
      (scoreMovie "abc".toList mAbc).similarity =
        calculateSimilarity "abc".toList (scoreMovie "abc".toList mAbc).movie.title :=
  rank_filter_gate [mAbc] "abc".toList none (scoreMovie "abc".toList mAbc)
    (by rw [rank_none_singleton mAbc_pass]; exact List.mem_singleton_self _)

/-- **C3, counterexample** — With one passing candidate, a non-numeric
`limit` (`"abc"`) yields the empty output (`parseInt` gives `NaN`,
`slice(0, NaN)` is empty) while the default (absent `limit`, treated as
`10`) yields one result: the code does not treat a non-numeric limit as
the default of 10. -/
theorem rank_limit_counterexample :
    rank [mAbc] "abc".toList (some "abc".toList) = [] ∧
    (rank [mAbc] "abc".toList none).length = 1 := by
  constructor
  · unfold rank
    rw [show effectiveLimit (some "abc".toList) = none from by decide, jsSlice_none]
  · rw [rank_none_singleton mAbc_pass]
    rfl

/-- **C3, amended** — `rank` truncates: for a `limit` string parsing to a
non-negative `n` the output has at most `n` entries, and an absent
`limit` behaves as the default `10`; but a non-numeric `limit` yields the
empty output (`slice(0, NaN)`), and a negative `limit` drops `|n|`
entries from the end of the sorted list instead of acting like `10`. -/
theorem rank_truncation_amended :
    (∀ (movies : List Movie) (query s : Str) (n : Int),
      jsParseInt s = some n → 0 ≤ n →
      (rank movies query (some s)).length ≤ n.toNat) ∧
    (∀ (movies : List Movie) (query : Str),
      (rank movies query none).length ≤ 10) ∧
    (∀ (movies : List Movie) (query s : Str),
      jsParseInt s = none → rank movies query (some s) = []) ∧
    (∀ (movies : List Movie) (query s : Str) (n : Int),
      jsParseInt s = some n → n < 0 →
      (rank movies query (some s)).length
        = (rankSorted movies query).length - (-n).toNat) := by
  refine ⟨?_, ?_, ?_, ?_⟩
  · intro movies query s n hp hn
    unfold rank
    rw [effectiveLimit_some, hp, jsSlice_nonneg _ _ hn, List.length_take]
    exact min_le_left _ _
  · intro movies query
    unfold rank
    rw [effectiveLimit_none, jsSlice_nonneg _ _ (by norm_num), List.length_take]
    omega
  · intro movies query s hp
    unfold rank
    rw [effectiveLimit_some, hp, jsSlice_none]
  · intro movies query s n hp hn
    unfold rank
    rw [effectiveLimit_some, hp, jsSlice_neg _ _ hn, List.length_take]
    omega

/-- Witness for C3 (amended): the truncation bound applied at the
concrete limit string `"5"`. -/
theorem rank_truncation_amended_witness :
    (rank [] "a".toList (some "5".toList)).length ≤ (5 : Int).toNat :=
  rank_truncation_amended.1 [] "a".toList "5".toList 5 (by decide) (by decide)

/-- **C4, counterexample** — A whitespace-only query (`" "`) is not
rejected by the route guard (only absent/empty query is), and the
ranking core returns a non-empty result for it: the trimmed, folded
query is the empty string, a substring of every title, so every
candidate with a non-empty title scores similarity `1`. -/
theorem whitespace_query_counterexample :
    searchEndpoint (some " ".toList) [mAbc] none ≠ .badRequest ∧
    rank [mAbc] " ".toList none ≠ [] := by
  constructor
  · show (if " ".toList = ([] : Str) then SearchResponse.badRequest
      else SearchResponse.ok (rank [mAbc] " ".toList none)) ≠ SearchResponse.badRequest
    rw [if_neg (by decide)]
    exact fun h => SearchResponse.noConfusion h
  · rw [rank_none_singleton (q := " ".toList) (m := mAbc)
      (by rw [calculateSimilarity_substring (by decide) (by decide)]; norm_num)]
    exact List.cons_ne_nil _ _

/-- **C4, amended** — An absent or empty `query` is rejected with a 400
response before any ranking computation; but a whitespace-only query
passes the guard and reaches the ranking core, where it gets similarity
`1` against every non-empty text (its trimmed folding is the empty
string, a substring of everything), so the core can return a non-empty
result set for it. -/
theorem empty_query_amended :
    (∀ (movies : List Movie) (limit : Option Str),
      searchEndpoint none movies limit = .badRequest) ∧
    (∀ (movies : List Movie) (limit : Option Str),
      searchEndpoint (some []) movies limit = .badRequest) ∧
    (∀ query : Str, query ≠ [] → jsTrim (jsToLower query) = [] →
      ∀ text : Str, text ≠ [] → calculateSimilarity query text = 1) := by
  refine ⟨fun movies limit => rfl, fun movies limit => rfl, ?_⟩
  intro query _ hq text ht
  apply calculateSimilarity_substring ht
  rw [hq]
  exact List.nil_infix

/-- Witness for C4 (amended): the whitespace query `" "` against the
text `"abc"`. -/
theorem empty_query_amended_witness :
    calculateSimilarity " ".toList "abc".toList = 1 :=
  empty_query_amended.2.2 " ".toList (by decide) (by decide) "abc".toList (by decide)

/-- Witness for C8: two identical candidates tie on `hybrid_score` and
keep their input order through the sort. -/
theorem rank_sorted_stable_witness :
    [scoreMovie "abc".toList mAbc, scoreMovie "abc".toList mAbc] <+
      rankSorted [mAbc, mAbc] "abc".toList :=
  rank_sorted_stable.2 [mAbc, mAbc] "abc".toList _ _ rfl
    (by
      rw [rankFiltered_cons_pos [mAbc] mAbc_pass, rankFiltered_cons_pos [] mAbc_pass,
        rankFiltered_nil])

end MovieStreaming
